import Mathlib

/-!
Verification of the PrimeCare collection-center client
(order lifecycle, timeline derivation, tracking poller, geo estimator).

Each definition is a shallow embedding of a function or constant of the
TypeScript source; the corresponding source location is given in its doc
comment.  Timestamps and identifiers are modelled as `Option String`
(`none` = JS `null`/`undefined`), coordinates as `ℚ` for the client-state
claims and as `ℝ` for the haversine analysis, and JS truthiness is made
explicit (`""`, `0`, `null`, `undefined` are falsy).
-/

/-- JS truthiness of an optional string (`null`/`undefined`/`""` are falsy). -/
def jsTruthyStr : Option String → Bool
  | none => false
  | some s => s ≠ ""

/-- JS `a || b` for an optional string `a` with string fallback `b`. -/
def jsStrOr (a : Option String) (b : String) : String :=
  match a with
  | none => b
  | some s => if s = "" then b else s

/-- JS `a || b` where both sides are optional strings. -/
def jsStrOrOpt (a b : Option String) : Option String :=
  match a with
  | none => b
  | some s => if s = "" then b else some s

/-- JS `a || b` for an optional number `a` with numeric fallback `b` (`0` is falsy). -/
def jsNumOr (a : Option ℚ) (b : ℚ) : ℚ :=
  match a with
  | none => b
  | some x => if x = 0 then b else x

/-- JS `a || b` where both sides are optional numbers (`0` is falsy). -/
def jsNumOrOpt (a b : Option ℚ) : Option ℚ :=
  match a with
  | none => b
  | some x => if x = 0 then b else some x

/-- JS truthiness of an optional number (`0`, `null`, `undefined` are falsy). -/
def jsTruthyNum : Option ℚ → Bool
  | none => false
  | some x => x ≠ 0

/-- `ORDER_STATUSES` from `src/unnamed/part_007` (the app's type module),
lines 251-262: the canonical order-status vocabulary of the client. -/
def ORDER_STATUSES : List String :=
  ["pending_rider_assignment",
   "assigned",
   "pickup_started",
   "picked_up",
   "delivery_started",
   "delivered",
   "cancelled",
   "handover_pending",
   "handover_accepted",
   "handover_confirmed"]

/-- The status union of the `RiderStatus` interface in
`src/src/screens/DeliveryCreatedScreen.tsx`, line 63. -/
def riderStatusValues : List String :=
  ["pending_rider_assignment",
   "assigned",
   "pickup_started",
   "picked_up",
   "delivery_started",
   "delivered",
   "cancelled"]

/-- A geographic coordinate pair (`{lat, lng}` / `{latitude, longitude}`),
over `ℚ` for the executable client-state model. -/
structure CoordQ where
  lat : ℚ
  lng : ℚ
  deriving Repr, DecidableEq

/-- The slice of the backend order object read by the screens of the client
(`Order` in `src/unnamed/part_007` plus the flattened timestamp fields the
screens access, e.g. `order.assigned_at` in `src/unnamed/part_001`). -/
structure OrderClient where
  status : String
  rider_id : Option String
  created_at : Option String
  assigned_at : Option String
  pickup_started_at : Option String
  picked_up_at : Option String
  delivery_started_at : Option String
  delivered_at : Option String
  sample_type : String
  sample_quantity : Option ℚ
  loc_pickup : Option CoordQ
  loc_delivery : Option CoordQ
  pickup_location_lat : Option ℚ
  pickup_location_lng : Option ℚ
  delivery_location_lat : Option ℚ
  delivery_location_lng : Option ℚ
  timing_estimated_delivery_time : Option String
  estimated_delivery_time : Option String
  updated_at : Option String
  rider_name : Option String
  rider_phone : Option String
  rider_info_name : Option String
  rider_info_phone : Option String
  rider_info_vehicle_type : Option String
  rider_info_vehicle_registration : Option String
  deriving Repr, DecidableEq

/-- One item of the UI timeline (`TimelineItem` in `src/unnamed/part_001`,
lines 84-90, plus the `orderStatus` tag the builder attaches). -/
structure TimelineItem where
  id : String
  title : String
  subtitle : String
  time : String
  status : String
  orderStatus : String
  deriving Repr, DecidableEq

/-- Models the platform locale formatter
`new Date(timestamp).toLocaleTimeString('en-US', ...)` used by `formatTime`
(`src/unnamed/part_001`, lines 352-363); opaque to the claims, which only
distinguish it from the literal `"Pending"`. -/
def localeTimeString (s : String) : String :=
  "localeTime(" ++ s ++ ")"

/-- `formatTime` in `buildTimelineFromOrder` (`src/unnamed/part_001`,
lines 352-363): `'Pending'` for an unset (falsy) timestamp, otherwise the
locale-formatted time. -/
def formatTime (t : Option String) : String :=
  match t with
  | none => "Pending"
  | some s => if s = "" then "Pending" else localeTimeString s

/-- The five base timeline steps built by `buildTimelineFromOrder`
(`src/unnamed/part_001`, lines 365-406), before the status-lookup pass. -/
def timelineBase (o : OrderClient) : List TimelineItem :=
  [{ id := "1",
     title := "Order Created",
     subtitle := "Delivery created with " ++ toString (jsNumOr o.sample_quantity 1)
       ++ " " ++ o.sample_type ++ " sample(s)",
     time := formatTime o.created_at,
     status := "completed",
     orderStatus := "created" },
   { id := "2",
     title := "Rider Assignment",
     subtitle := if jsTruthyStr o.rider_id then "Rider assigned successfully"
       else "Waiting for rider assignment",
     time := formatTime o.assigned_at,
     status := if jsTruthyStr o.assigned_at then "completed"
       else if o.status = "pending_rider_assignment" then "current" else "pending",
     orderStatus := "assigned" },
   { id := "3",
     title := "En Route to Pickup",
     subtitle := "Rider traveling to collection center",
     time := formatTime o.pickup_started_at,
     status := if jsTruthyStr o.pickup_started_at then "completed"
       else if o.status = "pickup_started" then "current" else "pending",
     orderStatus := "pickup_started" },
   { id := "4",
     title := "Samples Collected",
     subtitle := "QR code scanned and samples picked up",
     time := formatTime o.picked_up_at,
     status := if jsTruthyStr o.picked_up_at then "completed"
       else if o.status = "picked_up" then "current" else "pending",
     orderStatus := "picked_up" },
   { id := "5",
     title := "Delivered to Hospital",
     subtitle := if jsTruthyStr o.delivered_at then "Successfully delivered to hospital lab"
       else "En route to hospital",
     time := formatTime o.delivered_at,
     status := if jsTruthyStr o.delivered_at then "completed"
       else if o.status = "delivery_started" ∨ o.status = "delivered" then "current"
       else "pending",
     orderStatus := "delivered" }]

/-- The ad hoc status→step lookup of the second pass of
`buildTimelineFromOrder` (`src/unnamed/part_001`, lines 408-424): which
`orderStatus` tag is to be marked `current` for a given order status.
`none` when `order.status` is not in `currentOrderStatuses` (or hits the
switch default). -/
def currentTargetOrderStatus (s : String) : Option String :=
  if s = "pending_rider_assignment" then some "assigned"
  else if s = "assigned" then some "pickup_started"
  else if s = "pickup_started" then some "pickup_started"
  else if s = "picked_up" then some "picked_up"
  else if s = "delivery_started" then some "delivered"
  else none

/-- The `find`-and-mutate of the second pass: set `status := 'current'` on the
first step whose `orderStatus` equals the target. -/
def markCurrentFirst (t : String) : List TimelineItem → List TimelineItem
  | [] => []
  | i :: rest =>
    if i.orderStatus = t then { i with status := "current" } :: rest
    else i :: markCurrentFirst t rest

/-- `buildTimelineFromOrder` (`src/unnamed/part_001`, lines 351-427):
the five base steps followed by the ad hoc status→step `current` pass. -/
def buildTimelineFromOrder (o : OrderClient) : List TimelineItem :=
  match currentTargetOrderStatus o.status with
  | none => timelineBase o
  | some t => markCurrentFirst t (timelineBase o)

/-- `markCurrentFirst` preserves the length of the timeline. -/
theorem markCurrentFirst_length (t : String) (l : List TimelineItem) :
    (markCurrentFirst t l).length = l.length := by
  induction l with
  | nil => rfl
  | cons i rest ih =>
    by_cases h : i.orderStatus = t <;> simp [markCurrentFirst, h, ih]

/-- `markCurrentFirst` only rewrites the `status` field: any projection that
ignores `status` is preserved. -/
theorem markCurrentFirst_map {α : Type} (f : TimelineItem → α)
    (hf : ∀ i : TimelineItem, f { i with status := "current" } = f i)
    (t : String) (l : List TimelineItem) :
    (markCurrentFirst t l).map f = l.map f := by
  induction l with
  | nil => rfl
  | cons i rest ih =>
    by_cases h : i.orderStatus = t
    · simp only [markCurrentFirst]
      rw [if_pos h]
      simp [hf i]
    · simp only [markCurrentFirst]
      rw [if_neg h]
      simp [ih]

/-- An order snapshot in state `delivery_started` whose `picked_up_at`
timestamp is missing (the situation named by the spec's design note). -/
def orderDeliveryStartedNoPickup : OrderClient :=
  { status := "delivery_started"
    rider_id := some "R1"
    created_at := some "2024-01-01T08:00:00Z"
    assigned_at := some "2024-01-01T08:05:00Z"
    pickup_started_at := some "2024-01-01T08:10:00Z"
    picked_up_at := none
    delivery_started_at := some "2024-01-01T08:30:00Z"
    delivered_at := none
    sample_type := "blood"
    sample_quantity := some 2
    loc_pickup := none
    loc_delivery := none
    pickup_location_lat := none
    pickup_location_lng := none
    delivery_location_lat := none
    delivery_location_lng := none
    timing_estimated_delivery_time := none
    estimated_delivery_time := none
    updated_at := none
    rider_name := none
    rider_phone := none
    rider_info_name := none
    rider_info_phone := none
    rider_info_vehicle_type := none
    rider_info_vehicle_registration := none }

/-- C1 counterexample: for an order with status `delivery_started` and no
`picked_up_at`, the source timeline marks step 4 "Samples Collected"
`pending` (not `current`) and step 5 "Delivered to Hospital" `current`,
contradicting the claimed completed/current derivation rule. -/
theorem buildTimelineFromOrder_delivery_started_counterexample :
    (buildTimelineFromOrder orderDeliveryStartedNoPickup).map TimelineItem.status
      = ["completed", "completed", "completed", "pending", "current"]
    ∧ ((buildTimelineFromOrder orderDeliveryStartedNoPickup).map
        TimelineItem.status)[3]? ≠ some "current"
    ∧ ((buildTimelineFromOrder orderDeliveryStartedNoPickup).map
        TimelineItem.status)[4]? = some "current" := by
  refine ⟨rfl, ?_, rfl⟩
  decide

/-- C1 (amended): for every order with status `delivery_started` and a falsy
`picked_up_at`, the source timeline keeps "Samples Collected" `pending`,
marks "Delivered to Hospital" `current` via the ad hoc status→step lookup,
and marks steps 2 and 3 `completed` iff their timestamps are set. -/
theorem buildTimelineFromOrder_delivery_started (o : OrderClient)
    (hs : o.status = "delivery_started")
    (hp : jsTruthyStr o.picked_up_at = false) :
    (buildTimelineFromOrder o).map TimelineItem.status
      = ["completed",
         if jsTruthyStr o.assigned_at then "completed" else "pending",
         if jsTruthyStr o.pickup_started_at then "completed" else "pending",
         "pending",
         "current"] := by
  simp [buildTimelineFromOrder, currentTargetOrderStatus, timelineBase,
    markCurrentFirst, hs, hp]

/-- Witness for the amended C1 theorem at the concrete order above. -/
theorem buildTimelineFromOrder_delivery_started_witness :
    (buildTimelineFromOrder orderDeliveryStartedNoPickup).map TimelineItem.status
      = ["completed", "completed", "completed", "pending", "current"] := by
  have h := buildTimelineFromOrder_delivery_started orderDeliveryStartedNoPickup rfl rfl
  simpa [orderDeliveryStartedNoPickup, jsTruthyStr] using h

/-- C2 counterexample: the canonical vocabulary `ORDER_STATUSES` is not the
claimed eight-element set: it has ten elements, lacks `created`, and
contains the three handover statuses. -/
theorem ORDER_STATUSES_counterexample :
    ORDER_STATUSES ≠
      ["created", "pending_rider_assignment", "assigned", "pickup_started",
       "picked_up", "delivery_started", "delivered", "cancelled"]
    ∧ "created" ∉ ORDER_STATUSES
    ∧ "handover_pending" ∈ ORDER_STATUSES
    ∧ ORDER_STATUSES.length = 10 := by
  refine ⟨by decide, by decide, by decide, rfl⟩

/-- C2 (amended): the canonical status vocabulary is exactly the ten values
of `ORDER_STATUSES` (no `created`; three handover statuses included), and
the `RiderStatus` union of the DeliveryCreated screen is exactly the seven
non-handover values, each of which is canonical. -/
theorem ORDER_STATUSES_vocabulary :
    ORDER_STATUSES
      = ["pending_rider_assignment", "assigned", "pickup_started", "picked_up",
         "delivery_started", "delivered", "cancelled", "handover_pending",
         "handover_accepted", "handover_confirmed"]
    ∧ riderStatusValues
      = ["pending_rider_assignment", "assigned", "pickup_started", "picked_up",
         "delivery_started", "delivered", "cancelled"]
    ∧ ∀ s ∈ riderStatusValues, s ∈ ORDER_STATUSES := by
  refine ⟨rfl, rfl, by decide⟩

/-- C7: the timeline derivation is total over arbitrary order objects: it
always returns the fixed five steps, each step's time label is the
locale-formatted timestamp with `"Pending"` for an unset one, and for an
order with no rider (status not yet past assignment, later step timestamps
unset) every step after "Rider Assignment" is `pending`. -/
theorem buildTimelineFromOrder_total (o : OrderClient) :
    (buildTimelineFromOrder o).length = 5
    ∧ (buildTimelineFromOrder o).map TimelineItem.title
        = ["Order Created", "Rider Assignment", "En Route to Pickup",
           "Samples Collected", "Delivered to Hospital"]
    ∧ (buildTimelineFromOrder o).map TimelineItem.time
        = [formatTime o.created_at, formatTime o.assigned_at,
           formatTime o.pickup_started_at, formatTime o.picked_up_at,
           formatTime o.delivered_at]
    ∧ formatTime none = "Pending"
    ∧ (o.rider_id = none →
        (o.status = "created" ∨ o.status = "pending_rider_assignment"
          ∨ o.status = "cancelled") →
        o.pickup_started_at = none → o.picked_up_at = none → o.delivered_at = none →
        ((buildTimelineFromOrder o).map TimelineItem.status).drop 2
          = ["pending", "pending", "pending"]) := by
  have hlen : (buildTimelineFromOrder o).length = 5 := by
    unfold buildTimelineFromOrder
    cases currentTargetOrderStatus o.status with
    | none => rfl
    | some t => rw [markCurrentFirst_length]; rfl
  have htitle : (buildTimelineFromOrder o).map TimelineItem.title
      = ["Order Created", "Rider Assignment", "En Route to Pickup",
         "Samples Collected", "Delivered to Hospital"] := by
    unfold buildTimelineFromOrder
    cases currentTargetOrderStatus o.status with
    | none => rfl
    | some t => rw [markCurrentFirst_map TimelineItem.title (fun i => rfl)]; rfl
  have htime : (buildTimelineFromOrder o).map TimelineItem.time
      = [formatTime o.created_at, formatTime o.assigned_at,
         formatTime o.pickup_started_at, formatTime o.picked_up_at,
         formatTime o.delivered_at] := by
    unfold buildTimelineFromOrder
    cases currentTargetOrderStatus o.status with
    | none => rfl
    | some t => rw [markCurrentFirst_map TimelineItem.time (fun i => rfl)]; rfl
  refine ⟨hlen, htitle, htime, rfl, ?_⟩
  intro _ hst h3 h4 h5
  rcases hst with h | h | h <;>
    simp [buildTimelineFromOrder, currentTargetOrderStatus, timelineBase,
      markCurrentFirst, h, h3, h4, h5, jsTruthyStr]

/-- Witness for the C7 theorem at a rider-less pending order. -/
theorem buildTimelineFromOrder_total_witness :
    (buildTimelineFromOrder
        { orderDeliveryStartedNoPickup with
            status := "pending_rider_assignment", rider_id := none,
            assigned_at := none, pickup_started_at := none,
            delivery_started_at := none }).length = 5
    ∧ ((buildTimelineFromOrder
        { orderDeliveryStartedNoPickup with
            status := "pending_rider_assignment", rider_id := none,
            assigned_at := none, pickup_started_at := none,
            delivery_started_at := none }).map TimelineItem.status).drop 2
        = ["pending", "pending", "pending"] := by
  have h := buildTimelineFromOrder_total
    { orderDeliveryStartedNoPickup with
        status := "pending_rider_assignment", rider_id := none,
        assigned_at := none, pickup_started_at := none,
        delivery_started_at := none }
  exact ⟨h.1, h.2.2.2.2 rfl (Or.inr (Or.inl rfl)) rfl rfl rfl⟩

/-- The `LocationState` of the ActiveDeliveryDetails screen
(`src/unnamed/part_001`, lines 74-82). -/
structure LocationStateC where
  collectionCenter : CoordQ
  hospital : CoordQ
  riderLocation : Option CoordQ
  isRiderLocationActive : Bool
  routeCoordinates : List CoordQ
  estimatedTimeToPickup : String
  estimatedTimeToDelivery : String
  deriving Repr, DecidableEq

/-- The initial `LocationState` (`src/unnamed/part_001`, lines 113-127). -/
def initialLocationState : LocationStateC :=
  { collectionCenter := ⟨6.9147, 79.8731⟩
    hospital := ⟨6.9236, 79.8581⟩
    riderLocation := none
    isRiderLocationActive := false
    routeCoordinates := []
    estimatedTimeToPickup := "N/A"
    estimatedTimeToDelivery := "N/A" }

/-- The per-screen client state written by `loadOrderData`
(`src/unnamed/part_001`, lines 130-196): the stored order, the location
state and the derived timeline. -/
structure ClientState where
  orderData : Option OrderClient
  locationState : LocationStateC
  timeline : List TimelineItem
  deriving Repr, DecidableEq

/-- Initial screen state (`useState` defaults of `src/unnamed/part_001`). -/
def initialClientState : ClientState :=
  { orderData := none, locationState := initialLocationState, timeline := [] }

/-- The state update performed by `loadOrderData` on a fetched order snapshot
(`src/unnamed/part_001`, lines 136-180): `setOrderData(order)`, the
`setLocationState` merge with `||` fallbacks to the previous coordinates,
and `setTimeline(buildTimelineFromOrder(order, ...))`. -/
def applyOrderSnapshot (s : ClientState) (order : OrderClient) : ClientState :=
  let pickupLat := jsNumOrOpt (order.loc_pickup.map CoordQ.lat) order.pickup_location_lat
  let pickupLng := jsNumOrOpt (order.loc_pickup.map CoordQ.lng) order.pickup_location_lng
  let deliveryLat := jsNumOrOpt (order.loc_delivery.map CoordQ.lat) order.delivery_location_lat
  let deliveryLng := jsNumOrOpt (order.loc_delivery.map CoordQ.lng) order.delivery_location_lng
  { orderData := some order
    locationState := { s.locationState with
      collectionCenter :=
        ⟨jsNumOr pickupLat s.locationState.collectionCenter.lat,
         jsNumOr pickupLng s.locationState.collectionCenter.lng⟩
      hospital :=
        ⟨jsNumOr deliveryLat s.locationState.hospital.lat,
         jsNumOr deliveryLng s.locationState.hospital.lng⟩
      isRiderLocationActive := jsTruthyStr order.rider_id
      estimatedTimeToDelivery :=
        jsStrOr (jsStrOrOpt order.timing_estimated_delivery_time
          order.estimated_delivery_time) "N/A" }
    timeline := buildTimelineFromOrder order }

/-- The rider block of `RiderStatus`
(`src/src/screens/DeliveryCreatedScreen.tsx`, lines 62-75). -/
structure RiderC where
  id : String
  rider_name : String
  phone : String
  vehicle_type : String
  vehicle_registration : String
  deriving Repr, DecidableEq

/-- `RiderStatus` (`src/src/screens/DeliveryCreatedScreen.tsx`, lines 62-75). -/
structure RiderStatusC where
  status : String
  rider : Option RiderC
  last_updated : Option String
  deriving Repr, DecidableEq

/-- The `setRiderStatus` mapping of `pollRiderStatus`
(`src/src/screens/DeliveryCreatedScreen.tsx`, lines 143-167): the new
rider-status is a pure function of the fetched order snapshot. -/
def riderStatusFromOrder (order : OrderClient) : RiderStatusC :=
  { status := order.status
    rider :=
      if jsTruthyStr order.rider_id then
        some { id := order.rider_id.getD ""
               rider_name := jsStrOr (jsStrOrOpt order.rider_info_name order.rider_name) "Rider"
               phone := jsStrOr (jsStrOrOpt order.rider_info_phone order.rider_phone) ""
               vehicle_type := jsStrOr order.rider_info_vehicle_type "Vehicle"
               vehicle_registration := jsStrOr order.rider_info_vehicle_registration "N/A" }
      else none
    last_updated := order.updated_at }

/-- One `pollRiderStatus` tick applied to the previous rider status
(ignores the previous value: the source replaces it wholesale). -/
def applyRiderStatusSnapshot (_ : RiderStatusC) (order : OrderClient) : RiderStatusC :=
  riderStatusFromOrder order

/-- `jsNumOr` absorbs its own result: the second application of the same
fallback chain returns the first result. -/
theorem jsNumOr_idem (a : Option ℚ) (b : ℚ) :
    jsNumOr a (jsNumOr a b) = jsNumOr a b := by
  cases a with
  | none => rfl
  | some x =>
    by_cases h : x = 0 <;> simp [jsNumOr, h]

/-- C3 counterexample: timestamps are not write-once. Applying two snapshots
of the same order whose `assigned_at` differ (an out-of-order re-delivery)
changes the stored `assigned_at` after it was already set. -/
theorem snapshot_overwrites_assigned_at :
    ((applyOrderSnapshot initialClientState orderDeliveryStartedNoPickup).orderData.bind
        OrderClient.assigned_at) = some "2024-01-01T08:05:00Z"
    ∧ ((applyOrderSnapshot (applyOrderSnapshot initialClientState orderDeliveryStartedNoPickup)
          { orderDeliveryStartedNoPickup with
              assigned_at := some "2024-01-01T09:59:00Z" }).orderData.bind
        OrderClient.assigned_at) = some "2024-01-01T09:59:00Z"
    ∧ some "2024-01-01T08:05:00Z" ≠ some "2024-01-01T09:59:00Z" := by
  refine ⟨rfl, rfl, by decide⟩

/-- C3 (amended): applying the same fetched snapshot twice yields exactly the
state of applying it once, on both polling screens; but the update is a
wholesale overwrite, not a write-once merge. -/
theorem applySnapshot_idempotent (s : ClientState) (rs : RiderStatusC) (o : OrderClient) :
    applyOrderSnapshot (applyOrderSnapshot s o) o = applyOrderSnapshot s o
    ∧ applyRiderStatusSnapshot (applyRiderStatusSnapshot rs o) o
        = applyRiderStatusSnapshot rs o := by
  constructor
  · simp [applyOrderSnapshot, jsNumOr_idem]
  · rfl

/-- The tracking payload produced by `getOrderTracking`
(`src/unnamed/part_008`, lines 211-215): a rider location (always present),
an estimated arrival and the order status. -/
structure TrackingDataC where
  rider_location_lat : ℚ
  rider_location_lng : ℚ
  rider_location_timestamp : String
  estimated_arrival : String
  status : String
  deriving Repr, DecidableEq

/-- A row of the backend `location_tracking` array read by
`getOrderTracking` (`src/unnamed/part_008`, lines 222-240). -/
structure LocationTrackingRecord where
  location_lat : ℚ
  location_lng : ℚ
  recorded_at : String
  deriving Repr, DecidableEq

/-- The response construction of `getOrderTracking`
(`src/unnamed/part_008`, lines 220-253): latest `location_tracking` row if
any, else the rider's current location if both coordinates are truthy, else
the sentinel `{lat: 0, lng: 0, timestamp: now}`; `estimated_arrival` falls
back through the timing fields to `'N/A'`. -/
def getOrderTrackingData (locationTracking : List LocationTrackingRecord)
    (riderCurrentLat riderCurrentLng : Option ℚ) (riderCurrentUpdatedAt : Option String)
    (timingEstimatedDeliveryTime estimatedDeliveryTime : Option String)
    (status now : String) : TrackingDataC :=
  let eta := jsStrOr (jsStrOrOpt timingEstimatedDeliveryTime estimatedDeliveryTime) "N/A"
  match locationTracking.getLast? with
  | some l =>
    { rider_location_lat := l.location_lat
      rider_location_lng := l.location_lng
      rider_location_timestamp := l.recorded_at
      estimated_arrival := eta
      status := status }
  | none =>
    if jsTruthyNum riderCurrentLat ∧ jsTruthyNum riderCurrentLng then
      { rider_location_lat := riderCurrentLat.getD 0
        rider_location_lng := riderCurrentLng.getD 0
        rider_location_timestamp := jsStrOr riderCurrentUpdatedAt now
        estimated_arrival := eta
        status := status }
    else
      { rider_location_lat := 0
        rider_location_lng := 0
        rider_location_timestamp := now
        estimated_arrival := eta
        status := status }

/-- The success branch of `pollRiderLocation`
(`src/unnamed/part_001`, lines 213-255): the location state is updated only
when both rider coordinates are truthy and non-zero; otherwise it is left
untouched ("No valid rider location available"). -/
def pollApplyTracking (ls : LocationStateC) (td : TrackingDataC) : LocationStateC :=
  if td.rider_location_lat ≠ 0 ∧ td.rider_location_lng ≠ 0 then
    { ls with
      riderLocation := some ⟨td.rider_location_lat, td.rider_location_lng⟩
      isRiderLocationActive := true
      estimatedTimeToDelivery :=
        if td.estimated_arrival = "" then ls.estimatedTimeToDelivery
        else td.estimated_arrival }
  else ls

/-- The outcome of one tracking fetch as seen by `pollRiderLocation`:
either the promise rejects (caught, only logged) or tracking data arrives. -/
inductive FetchOutcome where
  | failure
  | ok (td : TrackingDataC)
  deriving Repr, DecidableEq

/-- One `pollRiderLocation` tick (`src/unnamed/part_001`, lines 207-260):
a failed fetch is caught and leaves the state unchanged; a successful fetch
is merged through the validity guard. -/
def pollRiderLocationStep (ls : LocationStateC) : FetchOutcome → LocationStateC
  | .failure => ls
  | .ok td => pollApplyTracking ls td

/-- The rider-location polling interval: `setInterval(pollRiderLocation,
30000)` (`src/unnamed/part_001`, line 263). -/
def pollIntervalMs : ℕ := 30000

/-- The rider-status polling interval: `setInterval(pollRiderStatus, 5000)`
(`src/src/screens/DeliveryCreatedScreen.tsx`, line 105). -/
def riderStatusPollIntervalMs : ℕ := 5000

/-- The effective polling interval after `n` consecutive fetch failures.
The source keeps the single `setInterval(pollRiderLocation, 30000)` timer
and its catch block only logs: no failure counter exists and the interval
is never altered, so the value is the constant `pollIntervalMs`. -/
def retryIntervalAfterFailures (_ : ℕ) : ℕ := pollIntervalMs

/-- C5 counterexample: the poller has no exponential backoff. There is no
ceiling above the base interval for which the retry interval follows the
claimed doubling-then-capped schedule: the interval after one consecutive
failure is still 30000 ms, not the doubled (or capped) value. -/
theorem no_exponential_backoff :
    ¬ ∃ cap : ℕ, pollIntervalMs < cap
      ∧ ∀ n : ℕ, retryIntervalAfterFailures n = min (pollIntervalMs * 2 ^ n) cap := by
  rintro ⟨cap, hcap, h⟩
  have h1 := h 1
  simp [retryIntervalAfterFailures, pollIntervalMs] at h1 hcap
  omega

/-- C5 (amended): on a failed fetch the state (last-known location, ETA) is
kept unchanged and the polling interval stays at the fixed 30000 ms for any
number of consecutive failures (the timer is never torn down), and the next
successful fetch is merged normally. -/
theorem poll_failure_keeps_state_fixed_interval (ls : LocationStateC) (n : ℕ)
    (td : TrackingDataC) :
    pollRiderLocationStep ls .failure = ls
    ∧ retryIntervalAfterFailures n = pollIntervalMs
    ∧ retryIntervalAfterFailures n = retryIntervalAfterFailures 0
    ∧ pollRiderLocationStep ls (.ok td) = pollApplyTracking ls td :=
  ⟨rfl, rfl, rfl, rfl⟩

/-- The client-local state of one order's tracking loop: whether the
periodic timer is installed, how many fetches are in flight, the location
state, and how many updates have been delivered to the screen. -/
structure TrackerState where
  timerActive : Bool
  inflight : ℕ
  loc : LocationStateC
  updatesDelivered : ℕ
  deriving Repr, DecidableEq

/-- Events of the tracking loop of `src/unnamed/part_001`, lines 204-269:
a timer tick starts a fetch, an in-flight fetch resolves, and the effect
cleanup (`return () => clearInterval(interval)`) runs on unsubscribe. -/
inductive TrackerEvent where
  | tick
  | resolve (r : FetchOutcome)
  | cleanup
  deriving Repr, DecidableEq

/-- Small-step semantics of the tracking loop. A tick fires only while the
timer is installed. Cleanup is exactly `clearInterval`: it uninstalls the
timer and nothing else. A resolving fetch applies `setLocationState`
unconditionally — the source has no cancellation/unmounted guard — and
counts a delivered update when the validity check passes. -/
def trackerStep (s : TrackerState) : TrackerEvent → TrackerState
  | .tick => if s.timerActive then { s with inflight := s.inflight + 1 } else s
  | .cleanup => { s with timerActive := false }
  | .resolve r =>
    if s.inflight = 0 then s
    else
      match r with
      | .failure => { s with inflight := s.inflight - 1 }
      | .ok td =>
        { s with
          inflight := s.inflight - 1
          loc := pollApplyTracking s.loc td
          updatesDelivered := s.updatesDelivered +
            (if td.rider_location_lat ≠ 0 ∧ td.rider_location_lng ≠ 0 then 1 else 0) }

/-- Run the tracking loop over a sequence of events. -/
def runTracker (s : TrackerState) (evs : List TrackerEvent) : TrackerState :=
  evs.foldl trackerStep s

/-- The tracking loop right after subscription: timer installed, nothing in
flight, initial location state. -/
def trackerStart : TrackerState :=
  { timerActive := true, inflight := 0, loc := initialLocationState, updatesDelivered := 0 }

/-- A concrete valid tracking payload. -/
def tdRider : TrackingDataC :=
  { rider_location_lat := 5, rider_location_lng := 5,
    rider_location_timestamp := "2024-01-01T10:00:00Z",
    estimated_arrival := "12 min", status := "delivery_started" }

/-- C6 counterexample: after a fetch has been started and the subscriber
cleans up, the fetch is still in flight (not cancelled), and when it
resolves it still updates the location state and delivers an update —
the notify callback fires after cancellation. -/
theorem cleanup_does_not_cancel_inflight :
    (runTracker trackerStart [.tick, .cleanup]).inflight = 1
    ∧ (runTracker trackerStart [.tick, .cleanup]).timerActive = false
    ∧ (runTracker trackerStart [.tick, .cleanup, .resolve (.ok tdRider)]).updatesDelivered = 1
    ∧ (runTracker trackerStart [.tick, .cleanup, .resolve (.ok tdRider)]).loc.riderLocation
        = some ⟨5, 5⟩ := by
  refine ⟨rfl, rfl, by decide, by decide⟩

/-- C6 (amended): cleanup deterministically releases the periodic timer (no
further tick ever starts a fetch — no orphaned timer), but it leaves any
in-flight fetch running rather than cancelling it. -/
theorem cleanup_releases_timer (s s' : TrackerState) (h : s'.timerActive = false) :
    (trackerStep s .cleanup).timerActive = false
    ∧ (trackerStep s .cleanup).inflight = s.inflight
    ∧ trackerStep s' .tick = s' := by
  refine ⟨rfl, rfl, ?_⟩
  simp [trackerStep, h]

/-- Witness for the amended C6 theorem. -/
theorem cleanup_releases_timer_witness :
    (trackerStep trackerStart .cleanup).timerActive = false
    ∧ trackerStep { trackerStart with timerActive := false } .tick
        = { trackerStart with timerActive := false } := by
  have h := cleanup_releases_timer trackerStart { trackerStart with timerActive := false } rfl
  exact ⟨h.1, h.2.2⟩

/-- C10: when there is no `location_tracking` row and no truthy rider
current location, `getOrderTracking` returns the sentinel location
`(0, 0)` stamped with the current time; and the consuming screen treats a
zero coordinate as "no valid rider location", leaving the previously
displayed rider location and ETA (the whole location state) unchanged. -/
theorem tracking_sentinel_and_consumer_guard
    (rcLat rcLng : Option ℚ) (rcUpd tEdt eDt : Option String) (status now : String)
    (h2 : ¬(jsTruthyNum rcLat ∧ jsTruthyNum rcLng)) :
    (getOrderTrackingData [] rcLat rcLng rcUpd tEdt eDt status now).rider_location_lat = 0
    ∧ (getOrderTrackingData [] rcLat rcLng rcUpd tEdt eDt status now).rider_location_lng = 0
    ∧ (getOrderTrackingData [] rcLat rcLng rcUpd tEdt eDt status now).rider_location_timestamp
        = now
    ∧ ∀ (ls : LocationStateC) (td : TrackingDataC),
        (td.rider_location_lat = 0 ∨ td.rider_location_lng = 0) →
        pollApplyTracking ls td = ls := by
  refine ⟨?_, ?_, ?_, ?_⟩
  · simp [getOrderTrackingData, h2]
  · simp [getOrderTrackingData, h2]
  · simp [getOrderTrackingData, h2]
  · intro ls td h
    unfold pollApplyTracking
    rw [if_neg]
    rcases h with h | h <;> simp [h]

/-- Witness for the C10 theorem at an empty tracking history with no rider
current location, and at a sentinel payload against the initial state. -/
theorem tracking_sentinel_and_consumer_guard_witness :
    (getOrderTrackingData [] none none none none none "assigned" "2024-01-01T10:00:00Z").rider_location_lat = 0
    ∧ (getOrderTrackingData [] none none none none none "assigned" "2024-01-01T10:00:00Z").rider_location_timestamp
        = "2024-01-01T10:00:00Z"
    ∧ pollApplyTracking initialLocationState
        { rider_location_lat := 0, rider_location_lng := 0,
          rider_location_timestamp := "2024-01-01T10:00:00Z",
          estimated_arrival := "N/A", status := "assigned" }
        = initialLocationState := by
  have h := tracking_sentinel_and_consumer_guard none none none none none
    "assigned" "2024-01-01T10:00:00Z" (by decide)
  exact ⟨h.1, h.2.2.1, h.2.2.2 initialLocationState _ (Or.inl rfl)⟩

/-- The marker list of `renderMap` (`src/unnamed/part_001`, lines 457-461):
collection center, hospital, and the rider location when present. -/
def allCoordinates (cc hosp : CoordQ) (rider : Option CoordQ) : List CoordQ :=
  [cc, hosp] ++ (match rider with | some r => [r] | none => [])

/-- `Math.min(...)` over a non-empty list (`0` for the empty list, which
`renderMap` never produces). -/
def qListMin : List ℚ → ℚ
  | [] => 0
  | x :: xs => xs.foldl min x

/-- `Math.max(...)` over a non-empty list. -/
def qListMax : List ℚ → ℚ
  | [] => 0
  | x :: xs => xs.foldl max x

/-- The `region` object of `renderMap` (`src/unnamed/part_001`,
lines 468-473). -/
structure MapRegion where
  latitude : ℚ
  longitude : ℚ
  latitudeDelta : ℚ
  longitudeDelta : ℚ
  deriving Repr, DecidableEq

/-- The map region of `renderMap` (`src/unnamed/part_001`, lines 463-473):
centered on the midpoint of the coordinate extremes, with spans padded by
1.5 and clamped below by 0.01. -/
def renderMapRegion (cc hosp : CoordQ) (rider : Option CoordQ) : MapRegion :=
  let lats := (allCoordinates cc hosp rider).map CoordQ.lat
  let lngs := (allCoordinates cc hosp rider).map CoordQ.lng
  { latitude := (qListMin lats + qListMax lats) / 2
    longitude := (qListMin lngs + qListMax lngs) / 2
    latitudeDelta := max 0.01 ((qListMax lats - qListMin lats) * 1.5)
    longitudeDelta := max 0.01 ((qListMax lngs - qListMin lngs) * 1.5) }

theorem foldl_min_le_seed (l : List ℚ) (seed : ℚ) : l.foldl min seed ≤ seed := by
  induction l generalizing seed with
  | nil => simp [List.foldl]
  | cons y ys ih =>
    exact le_trans (ih (min seed y)) (min_le_left _ _)

theorem foldl_min_le_of_mem : ∀ (l : List ℚ) (seed x : ℚ), x ∈ l →
    l.foldl min seed ≤ x := by
  intro l
  induction l with
  | nil => intro seed x hx; cases hx
  | cons y ys ih =>
    intro seed x hx
    rcases List.mem_cons.mp hx with h | h
    · subst h
      exact le_trans (foldl_min_le_seed ys (min seed x)) (min_le_right _ _)
    · exact ih (min seed y) x h

theorem seed_le_foldl_max (l : List ℚ) (seed : ℚ) : seed ≤ l.foldl max seed := by
  induction l generalizing seed with
  | nil => simp [List.foldl]
  | cons y ys ih =>
    exact le_trans (le_max_left _ _) (ih (max seed y))

theorem mem_le_foldl_max : ∀ (l : List ℚ) (seed x : ℚ), x ∈ l →
    x ≤ l.foldl max seed := by
  intro l
  induction l with
  | nil => intro seed x hx; cases hx
  | cons y ys ih =>
    intro seed x hx
    rcases List.mem_cons.mp hx with h | h
    · subst h
      exact le_trans (le_max_right _ _) (seed_le_foldl_max ys (max seed x))
    · exact ih (max seed y) x h

theorem qListMin_le_of_mem (l : List ℚ) (x : ℚ) (hx : x ∈ l) : qListMin l ≤ x := by
  cases l with
  | nil => cases hx
  | cons y ys =>
    rcases List.mem_cons.mp hx with h | h
    · subst h; exact foldl_min_le_seed ys x
    · exact foldl_min_le_of_mem ys y x h

theorem le_qListMax_of_mem (l : List ℚ) (x : ℚ) (hx : x ∈ l) : x ≤ qListMax l := by
  cases l with
  | nil => cases hx
  | cons y ys =>
    rcases List.mem_cons.mp hx with h | h
    · subst h; exact seed_le_foldl_max ys x
    · exact mem_le_foldl_max ys y x h

theorem region_coverage_helper (m M x : ℚ) (h1 : m ≤ x) (h2 : x ≤ M) :
    |x - (m + M) / 2| ≤ (max 0.01 ((M - m) * 1.5)) / 2 := by
  have h3 : (M - m) * 1.5 ≤ max 0.01 ((M - m) * 1.5) := le_max_right _ _
  rw [abs_le]
  constructor <;> linarith

/-- C9: the computed map region is centered at the midpoint of the
coordinate extremes, both spans are at least the fixed minimum 0.01, and
every input coordinate lies within half a span of the center on both axes. -/
theorem renderMap_region_spec (cc hosp : CoordQ) (rider : Option CoordQ) :
    2 * (renderMapRegion cc hosp rider).latitude
        = qListMin ((allCoordinates cc hosp rider).map CoordQ.lat)
          + qListMax ((allCoordinates cc hosp rider).map CoordQ.lat)
    ∧ 2 * (renderMapRegion cc hosp rider).longitude
        = qListMin ((allCoordinates cc hosp rider).map CoordQ.lng)
          + qListMax ((allCoordinates cc hosp rider).map CoordQ.lng)
    ∧ 0.01 ≤ (renderMapRegion cc hosp rider).latitudeDelta
    ∧ 0.01 ≤ (renderMapRegion cc hosp rider).longitudeDelta
    ∧ ∀ p ∈ allCoordinates cc hosp rider,
        |p.lat - (renderMapRegion cc hosp rider).latitude|
            ≤ (renderMapRegion cc hosp rider).latitudeDelta / 2
        ∧ |p.lng - (renderMapRegion cc hosp rider).longitude|
            ≤ (renderMapRegion cc hosp rider).longitudeDelta / 2 := by
  refine ⟨by simp [renderMapRegion]; ring, by simp [renderMapRegion]; ring,
    le_max_left _ _, le_max_left _ _, ?_⟩
  intro p hp
  constructor
  · exact region_coverage_helper _ _ _
      (qListMin_le_of_mem _ _ (List.mem_map_of_mem CoordQ.lat hp))
      (le_qListMax_of_mem _ _ (List.mem_map_of_mem CoordQ.lat hp))
  · exact region_coverage_helper _ _ _
      (qListMin_le_of_mem _ _ (List.mem_map_of_mem CoordQ.lng hp))
      (le_qListMax_of_mem _ _ (List.mem_map_of_mem CoordQ.lng hp))

/-- Witness for the C9 theorem: a single-point (colocated) input still
yields a region with the minimum span, covering the point. -/
theorem renderMap_region_spec_witness :
    0.01 ≤ (renderMapRegion ⟨1, 2⟩ ⟨1, 2⟩ none).latitudeDelta
    ∧ |(1 : ℚ) - (renderMapRegion ⟨1, 2⟩ ⟨1, 2⟩ none).latitude|
        ≤ (renderMapRegion ⟨1, 2⟩ ⟨1, 2⟩ none).latitudeDelta / 2
    ∧ |(2 : ℚ) - (renderMapRegion ⟨1, 2⟩ ⟨1, 2⟩ none).longitude|
        ≤ (renderMapRegion ⟨1, 2⟩ ⟨1, 2⟩ none).longitudeDelta / 2 := by
  have h := renderMap_region_spec ⟨1, 2⟩ ⟨1, 2⟩ none
  have hc := h.2.2.2.2 ⟨1, 2⟩ (by simp [allCoordinates])
  exact ⟨h.2.2.1, hc.1, hc.2⟩

/-- `scan_type` of a custody scan (`ChainOfCustodyItem` in
`src/src/screens/OrderDetailsScreen.tsx`, line 88; spec §3). The client
source only declares the type and queries QR codes (`getOrderQR`,
`src/unnamed/part_008`); scan recording itself is backend-side. -/
inductive ScanType where
  | pickup
  | delivery
  deriving Repr, DecidableEq

/-- A custody scan event (spec §3, `ChainOfCustodyItem`). -/
structure CustodyEvent where
  scan_type : ScanType
  recorded_at : ℕ
  success : Bool
  deriving Repr, DecidableEq

/-- Custody-protocol errors (spec §4.3). -/
inductive ScanError where
  | OutOfSequence
  | AlreadyScanned
  deriving Repr, DecidableEq

/-- Whether a successful scan of the given type exists for the order. -/
def hasSuccess (evs : List CustodyEvent) (ty : ScanType) : Bool :=
  evs.any (fun e => e.scan_type = ty ∧ e.success)

/-- Modelled from the spec: `record_scan(order, scan_type, at)` of §4.3 is
not present in `src/` (the client only declares `ChainOfCustodyItem` and
fetches QR codes; recording happens on the backend). Per the spec it fails
with `AlreadyScanned` when a successful scan of the same type exists, fails
with `OutOfSequence` when a delivery scan has no prior successful pickup
scan, and otherwise appends a successful scan event. -/
def record_scan (evs : List CustodyEvent) (ty : ScanType) (t : ℕ) :
    Except ScanError (List CustodyEvent) :=
  if hasSuccess evs ty then .error .AlreadyScanned
  else if ty = .delivery ∧ ¬ hasSuccess evs .pickup then .error .OutOfSequence
  else .ok (evs ++ [{ scan_type := ty, recorded_at := t, success := true }])

/-- Scan histories reachable by the protocol: a successful delivery scan is
always preceded by a successful pickup scan. -/
def scansWellFormed (evs : List CustodyEvent) : Prop :=
  hasSuccess evs .delivery = true → hasSuccess evs .pickup = true

instance (evs : List CustodyEvent) : Decidable (scansWellFormed evs) := by
  unfold scansWellFormed
  infer_instance

/-- C4: on any reachable scan history, a delivery scan fails with
`OutOfSequence` unless a successful pickup scan exists; a scan of a type
that already has a successful scan fails with `AlreadyScanned`; and a scan
only succeeds when no successful scan of its type existed (at most one
successful scan per type); `record_scan` preserves reachability. -/
theorem record_scan_spec (evs : List CustodyEvent) (ty : ScanType) (t : ℕ)
    (hwf : scansWellFormed evs) :
    (ty = .delivery → hasSuccess evs .pickup = false →
      record_scan evs ty t = .error .OutOfSequence)
    ∧ (hasSuccess evs ty = true → record_scan evs ty t = .error .AlreadyScanned)
    ∧ (∀ evs', record_scan evs ty t = .ok evs' → hasSuccess evs ty = false)
    ∧ (∀ evs', record_scan evs ty t = .ok evs' → scansWellFormed evs') := by
  refine ⟨?_, ?_, ?_, ?_⟩
  · intro hty hpk
    subst hty
    have hnd : hasSuccess evs .delivery = false := by
      cases hd : hasSuccess evs .delivery with
      | false => rfl
      | true => rw [hwf hd] at hpk; cases hpk
    unfold record_scan
    rw [hnd]
    simp [hpk]
  · intro h
    unfold record_scan
    rw [h]
    rfl
  · intro evs' h
    unfold record_scan at h
    cases hs : hasSuccess evs ty with
    | false => rfl
    | true => rw [hs] at h; cases h
  · intro evs' h
    unfold record_scan at h
    by_cases hs : hasSuccess evs ty
    · rw [if_pos hs] at h; cases h
    · rw [if_neg hs] at h
      by_cases hseq : ty = .delivery ∧ ¬ hasSuccess evs .pickup
      · rw [if_pos hseq] at h; cases h
      · rw [if_neg hseq] at h
        injection h with h
        subst h
        intro hd
        cases ty with
        | pickup =>
          simp [hasSuccess]
        | delivery =>
          push_neg at hseq
          have hpk : hasSuccess evs .pickup = true := hseq rfl
          simp only [hasSuccess, List.any_append] at hd ⊢
          rw [show evs.any (fun e => e.scan_type = ScanType.pickup ∧ e.success) = true from hpk]
          rfl

/-- Witness for the C4 theorem: a delivery scan on an empty history is
`OutOfSequence`; after a successful pickup scan, a second pickup scan is
`AlreadyScanned`. -/
theorem record_scan_spec_witness :
    record_scan [] .delivery 5 = .error .OutOfSequence
    ∧ record_scan [{ scan_type := .pickup, recorded_at := 1, success := true }] .pickup 5
        = .error .AlreadyScanned := by
  refine ⟨(record_scan_spec [] .delivery 5 (by decide)).1 rfl (by decide), ?_⟩
  exact (record_scan_spec [{ scan_type := .pickup, recorded_at := 1, success := true }]
    .pickup 5 (by decide)).2.1 (by decide)

/-- `LocationCoordinates` (`src/src/services/profileService.ts`): a
latitude/longitude pair, over `ℝ` for the geodesic analysis. -/
structure LocationCoordinates where
  lat : ℝ
  lng : ℝ

/-- `degreesToRadians` (`src/src/services/profileService.ts`, lines 240-242). -/
noncomputable def degreesToRadians (degrees : ℝ) : ℝ :=
  degrees * (Real.pi / 180)

/-- Models the platform `Math.atan2(y, x)` used by `haversineDistance`
(two-argument arctangent with the standard quadrant convention,
`atan2 0 0 = 0` as in JS). -/
noncomputable def atan2 (y x : ℝ) : ℝ :=
  if 0 < x then Real.arctan (y / x)
  else if x < 0 then
    (if 0 ≤ y then Real.arctan (y / x) + Real.pi else Real.arctan (y / x) - Real.pi)
  else
    (if 0 < y then Real.pi / 2 else if y < 0 then -(Real.pi / 2) else 0)

/-- The intermediate `a` of `haversineDistance`
(`src/src/services/profileService.ts`, lines 227-232). -/
noncomputable def haverA (coord1 coord2 : LocationCoordinates) : ℝ :=
  Real.sin (degreesToRadians (coord2.lat - coord1.lat) / 2)
      * Real.sin (degreesToRadians (coord2.lat - coord1.lat) / 2)
    + Real.cos (degreesToRadians coord1.lat) * Real.cos (degreesToRadians coord2.lat)
      * Real.sin (degreesToRadians (coord2.lng - coord1.lng) / 2)
      * Real.sin (degreesToRadians (coord2.lng - coord1.lng) / 2)

/-- `haversineDistance` (`src/src/services/profileService.ts`,
lines 221-238): great-circle distance in kilometers with Earth radius
`R = 6371`. -/
noncomputable def haversineDistance (coord1 coord2 : LocationCoordinates) : ℝ :=
  let R : ℝ := 6371
  let a := haverA coord1 coord2
  let c := 2 * atan2 (Real.sqrt a) (Real.sqrt (1 - a))
  R * c

/-- Latitude in radians. -/
noncomputable def latRad (c : LocationCoordinates) : ℝ := degreesToRadians c.lat

/-- Longitude in radians. -/
noncomputable def lngRad (c : LocationCoordinates) : ℝ := degreesToRadians c.lng

/-- The spherical dot product of the unit vectors of two coordinates. -/
noncomputable def dotU (c1 c2 : LocationCoordinates) : ℝ :=
  Real.sin (latRad c1) * Real.sin (latRad c2)
    + Real.cos (latRad c1) * Real.cos (latRad c2) * Real.cos (lngRad c1 - lngRad c2)

/-- The central angle between two coordinates on the unit sphere. -/
noncomputable def centralAngle (c1 c2 : LocationCoordinates) : ℝ :=
  Real.arccos (dotU c1 c2)

/-- The unit vector of a coordinate in Euclidean 3-space. -/
noncomputable def toVec (c : LocationCoordinates) : EuclideanSpace ℝ (Fin 3) :=
  (WithLp.equiv 2 (Fin 3 → ℝ)).symm
    ![Real.cos (latRad c) * Real.cos (lngRad c),
      Real.cos (latRad c) * Real.sin (lngRad c),
      Real.sin (latRad c)]

theorem degreesToRadians_sub (a b : ℝ) :
    degreesToRadians (a - b) = degreesToRadians a - degreesToRadians b := by
  unfold degreesToRadians
  ring

theorem sin_half_mul_self (x : ℝ) :
    Real.sin (x / 2) * Real.sin (x / 2) = (1 - Real.cos x) / 2 := by
  have h := Real.sin_sq_eq_half_sub (x / 2)
  rw [show 2 * (x / 2) = x by ring] at h
  rw [← pow_two]
  rw [h]
  ring

theorem haverA_eq (c1 c2 : LocationCoordinates) :
    haverA c1 c2 = (1 - dotU c1 c2) / 2 := by
  have h1 := sin_half_mul_self (degreesToRadians c2.lat - degreesToRadians c1.lat)
  have h2 := sin_half_mul_self (degreesToRadians c2.lng - degreesToRadians c1.lng)
  have h3 := Real.cos_sub (degreesToRadians c2.lat) (degreesToRadians c1.lat)
  have h4 := Real.cos_sub (degreesToRadians c1.lng) (degreesToRadians c2.lng)
  have h5 := Real.cos_sub (degreesToRadians c2.lng) (degreesToRadians c1.lng)
  unfold haverA dotU latRad lngRad
  rw [degreesToRadians_sub, degreesToRadians_sub]
  linear_combination h1 + Real.cos (degreesToRadians c1.lat) * Real.cos (degreesToRadians c2.lat) * h2
    - h3 / 2
    + (Real.cos (degreesToRadians c1.lat) * Real.cos (degreesToRadians c2.lat) / 2) * h4
    - (Real.cos (degreesToRadians c1.lat) * Real.cos (degreesToRadians c2.lat) / 2) * h5

theorem inner_toVec (c1 c2 : LocationCoordinates) :
    (inner (toVec c1) (toVec c2) : ℝ) = dotU c1 c2 := by
  simp only [toVec, PiLp.inner_apply, RCLike.inner_apply, starRingEnd_apply, star_trivial,
    WithLp.equiv_symm_pi_apply, Fin.sum_univ_three, Matrix.cons_val_zero, Matrix.cons_val_one,
    Matrix.head_cons, Matrix.cons_val_two, Matrix.tail_cons]
  unfold dotU
  rw [Real.cos_sub]
  ring

theorem dotU_self (c : LocationCoordinates) : dotU c c = 1 := by
  unfold dotU
  rw [sub_self, Real.cos_zero]
  linear_combination Real.sin_sq_add_cos_sq (latRad c)

theorem dotU_comm (c1 c2 : LocationCoordinates) : dotU c1 c2 = dotU c2 c1 := by
  unfold dotU
  rw [show lngRad c1 - lngRad c2 = -(lngRad c2 - lngRad c1) by ring, Real.cos_neg]
  ring

theorem norm_toVec (c : LocationCoordinates) : ‖toVec c‖ = 1 := by
  have h : (inner (toVec c) (toVec c) : ℝ) = 1 := by
    rw [inner_toVec, dotU_self]
  have h2 : ‖toVec c‖ ^ 2 = 1 := by
    rw [← real_inner_self_eq_norm_sq]
    exact h
  rw [← Real.sqrt_sq (norm_nonneg (toVec c)), h2, Real.sqrt_one]

theorem abs_dotU_le_one (c1 c2 : LocationCoordinates) : |dotU c1 c2| ≤ 1 := by
  have h := abs_real_inner_le_norm (toVec c1) (toVec c2)
  rwa [norm_toVec, norm_toVec, mul_one, inner_toVec] at h

theorem cos_centralAngle (c1 c2 : LocationCoordinates) :
    Real.cos (centralAngle c1 c2) = dotU c1 c2 := by
  have h := abs_le.mp (abs_dotU_le_one c1 c2)
  exact Real.cos_arccos h.1 h.2

theorem sqrt_haverA_eq (c1 c2 : LocationCoordinates) :
    Real.sqrt (haverA c1 c2) = Real.sin (centralAngle c1 c2 / 2) := by
  rw [haverA_eq, ← cos_centralAngle c1 c2, ← Real.abs_sin_half]
  have h0 : 0 ≤ centralAngle c1 c2 := Real.arccos_nonneg _
  have hπ : centralAngle c1 c2 ≤ Real.pi := Real.arccos_le_pi _
  have hpi := Real.pi_pos
  exact abs_of_nonneg (Real.sin_nonneg_of_nonneg_of_le_pi (by linarith) (by linarith))

theorem sqrt_one_sub_haverA_eq (c1 c2 : LocationCoordinates) :
    Real.sqrt (1 - haverA c1 c2) = Real.cos (centralAngle c1 c2 / 2) := by
  rw [haverA_eq, ← cos_centralAngle c1 c2,
    show (1 : ℝ) - (1 - Real.cos (centralAngle c1 c2)) / 2
      = (1 + Real.cos (centralAngle c1 c2)) / 2 by ring]
  have h0 : 0 ≤ centralAngle c1 c2 := Real.arccos_nonneg _
  have hπ : centralAngle c1 c2 ≤ Real.pi := Real.arccos_le_pi _
  have hpi := Real.pi_pos
  exact (Real.cos_half (by linarith) hπ).symm

theorem atan2_sin_cos {θ : ℝ} (h0 : 0 ≤ θ) (hπ : θ ≤ Real.pi) :
    atan2 (Real.sin (θ / 2)) (Real.cos (θ / 2)) = θ / 2 := by
  have hpi := Real.pi_pos
  by_cases hc : 0 < Real.cos (θ / 2)
  · unfold atan2
    rw [if_pos hc]
    have hlt : θ / 2 < Real.pi / 2 := by
      by_contra hge
      push_neg at hge
      have heq : θ / 2 = Real.pi / 2 := le_antisymm (by linarith) hge
      rw [heq, Real.cos_pi_div_two] at hc
      exact lt_irrefl 0 hc
    rw [← Real.tan_eq_sin_div_cos]
    exact Real.arctan_tan (by linarith) hlt
  · have hnn : 0 ≤ Real.cos (θ / 2) :=
      Real.cos_nonneg_of_mem_Icc ⟨by linarith, by linarith⟩
    have hθ : θ = Real.pi := by
      by_contra hne
      have hlt : θ < Real.pi := lt_of_le_of_ne hπ hne
      exact hc (Real.cos_pos_of_mem_Ioo ⟨by linarith, by linarith⟩)
    subst hθ
    unfold atan2
    rw [Real.cos_pi_div_two, Real.sin_pi_div_two]
    rw [if_neg (lt_irrefl (0 : ℝ)), if_neg (lt_irrefl (0 : ℝ)),
      if_pos (by norm_num : (0 : ℝ) < 1)]

theorem haversine_eq_centralAngle (c1 c2 : LocationCoordinates) :
    haversineDistance c1 c2 = 6371 * centralAngle c1 c2 := by
  show 6371 * (2 * atan2 (Real.sqrt (haverA c1 c2)) (Real.sqrt (1 - haverA c1 c2)))
    = 6371 * centralAngle c1 c2
  rw [sqrt_haverA_eq, sqrt_one_sub_haverA_eq,
    @atan2_sin_cos (centralAngle c1 c2) (Real.arccos_nonneg _) (Real.arccos_le_pi _)]
  ring

theorem inner_triangle_key {E : Type _} [NormedAddCommGroup E] [InnerProductSpace ℝ E]
    (u v w : E) (hu : ‖u‖ = 1) (hv : ‖v‖ = 1) (hw : ‖w‖ = 1) :
    (inner u v : ℝ) * (inner v w : ℝ)
      - Real.sqrt (1 - (inner u v : ℝ) ^ 2) * Real.sqrt (1 - (inner v w : ℝ) ^ 2)
      ≤ (inner u w : ℝ) := by
  have hvv : (inner v v : ℝ) = 1 := by
    rw [real_inner_self_eq_norm_sq, hv]
    norm_num
  have hnu : ‖u - (inner u v : ℝ) • v‖ ^ 2 = 1 - (inner u v : ℝ) ^ 2 := by
    rw [norm_sub_sq_real, real_inner_smul_right, norm_smul, Real.norm_eq_abs, hu, hv,
      mul_one, sq_abs]
    ring
  have hnw : ‖w - (inner v w : ℝ) • v‖ ^ 2 = 1 - (inner v w : ℝ) ^ 2 := by
    rw [norm_sub_sq_real, real_inner_smul_right, norm_smul, Real.norm_eq_abs, hw, hv,
      mul_one, sq_abs, ← real_inner_comm w v]
    ring
  have hinner : (inner (u - (inner u v : ℝ) • v) (w - (inner v w : ℝ) • v) : ℝ)
      = (inner u w : ℝ) - (inner u v : ℝ) * (inner v w : ℝ) := by
    rw [inner_sub_left, inner_sub_right, inner_sub_right, real_inner_smul_left,
      real_inner_smul_left, real_inner_smul_right, real_inner_smul_right, hvv]
    ring
  have hcs := abs_real_inner_le_norm (u - (inner u v : ℝ) • v) (w - (inner v w : ℝ) • v)
  have hnu' : ‖u - (inner u v : ℝ) • v‖ = Real.sqrt (1 - (inner u v : ℝ) ^ 2) := by
    rw [← hnu, Real.sqrt_sq (norm_nonneg _)]
  have hnw' : ‖w - (inner v w : ℝ) • v‖ = Real.sqrt (1 - (inner v w : ℝ) ^ 2) := by
    rw [← hnw, Real.sqrt_sq (norm_nonneg _)]
  rw [hinner, hnu', hnw'] at hcs
  have hneg := neg_abs_le ((inner u w : ℝ) - (inner u v : ℝ) * (inner v w : ℝ))
  linarith

theorem arccos_le_arccos_add_arccos (p q r : ℝ) (hp : |p| ≤ 1) (hq : |q| ≤ 1)
    (hkey : p * q - Real.sqrt (1 - p ^ 2) * Real.sqrt (1 - q ^ 2) ≤ r) :
    Real.arccos r ≤ Real.arccos p + Real.arccos q := by
  obtain ⟨hpl, hpu⟩ := abs_le.mp hp
  obtain ⟨hql, hqu⟩ := abs_le.mp hq
  by_cases hle : Real.arccos p + Real.arccos q ≤ Real.pi
  · have hcos : Real.cos (Real.arccos p + Real.arccos q)
        = p * q - Real.sqrt (1 - p ^ 2) * Real.sqrt (1 - q ^ 2) := by
      rw [Real.cos_add, Real.cos_arccos hpl hpu, Real.cos_arccos hql hqu,
        Real.sin_arccos, Real.sin_arccos]
    have h0 : 0 ≤ Real.arccos p + Real.arccos q :=
      add_nonneg (Real.arccos_nonneg _) (Real.arccos_nonneg _)
    have hmono : Real.arccos r
        ≤ Real.arccos (p * q - Real.sqrt (1 - p ^ 2) * Real.sqrt (1 - q ^ 2)) := by
      rw [Real.arccos_eq_pi_div_two_sub_arcsin, Real.arccos_eq_pi_div_two_sub_arcsin]
      have := Real.monotone_arcsin hkey
      linarith
    rw [← hcos, Real.arccos_cos h0 hle] at hmono
    exact hmono
  · push_neg at hle
    linarith [Real.arccos_le_pi r]

theorem centralAngle_triangle (a b c : LocationCoordinates) :
    centralAngle a c ≤ centralAngle a b + centralAngle b c := by
  have h := inner_triangle_key (toVec a) (toVec b) (toVec c)
    (norm_toVec a) (norm_toVec b) (norm_toVec c)
  rw [inner_toVec, inner_toVec, inner_toVec] at h
  exact arccos_le_arccos_add_arccos _ _ _ (abs_dotU_le_one a b) (abs_dotU_le_one b c) h

/-- C8: the haversine great-circle distance vanishes on equal coordinates,
is symmetric, and satisfies the triangle inequality for arbitrary
coordinates. -/
theorem haversineDistance_metric (a b c : LocationCoordinates) :
    haversineDistance a a = 0
    ∧ haversineDistance a b = haversineDistance b a
    ∧ haversineDistance a c ≤ haversineDistance a b + haversineDistance b c := by
  refine ⟨?_, ?_, ?_⟩
  · rw [haversine_eq_centralAngle]
    unfold centralAngle
    rw [dotU_self, Real.arccos_one, mul_zero]
  · rw [haversine_eq_centralAngle, haversine_eq_centralAngle]
    unfold centralAngle
    rw [dotU_comm]
  · rw [haversine_eq_centralAngle, haversine_eq_centralAngle, haversine_eq_centralAngle]
    have h := centralAngle_triangle a b c
    linarith
